import Mathlib

/-!
Shallow embedding of the sandboxed execution controller
(`rs/canister_sandbox/replica_controller/src/sandboxed_execution_controller.rs`).

Modelling conventions:
* `Arc<SandboxProcess>` is modelled by the `SandboxProcess` record itself;
  `Weak<SandboxProcess>` by the target pid together with a set `live` of pids
  whose controller-side object still has a strong owner (upgrade succeeds
  exactly when the pid is in `live`).
* Interior mutability (`Mutex` cells inside `WasmBinary` and `Memory`) is
  modelled by explicit state passing: the functions return the updated values.
* RPC sends are recorded in an event trace `(pid, Msg)`; replies from the
  sandbox are supplied as oracle parameters.
* `Instant` is a `Nat`; `checked_duration_since(..).unwrap_or(0)` is the
  truncated subtraction on `Nat`.
* Rust panics (failed `assert!`) are modelled by returning `none`.
-/

namespace SandboxCtrl

/-- An OS sandbox child process; stands for the controller-side
`SandboxProcess` object (pid plus its RPC endpoint). -/
structure SandboxProcess where
  pid : Nat
deriving DecidableEq, Repr

/-- Modelled from the spec: the caller-side page map
(`ic_replicated_state::PageMap`, whose sources are not part of this
repository fragment) is "a base plus a set of modified pages (delta)";
`deserialize_delta` merges a received delta into the accumulated deltas and
`serialize` exposes the base together with the accumulated `page_delta` and
`round_delta`. -/
structure PageMap where
  base : List Nat
  page_delta : List Nat
  round_delta : List Nat
deriving DecidableEq, Repr

/-- Serialized form of a page map, as inspected by `open_remote_memory`. -/
structure PageMapSerialization where
  base : List Nat
  page_delta : List Nat
  round_delta : List Nat
deriving DecidableEq, Repr

def PageMap.serialize (pm : PageMap) : PageMapSerialization :=
  { base := pm.base, page_delta := pm.page_delta, round_delta := pm.round_delta }

def PageMap.deserialize_delta (pm : PageMap) (delta : List Nat) : PageMap :=
  { pm with page_delta := pm.page_delta ++ delta }

/-- `SandboxMemoryHandle`: wraps an `OpenedMemory`, i.e. a strong reference to
the sandbox process together with the remote `MemoryId`. -/
structure SandboxMemoryHandle where
  sandbox_process : SandboxProcess
  memory_id : Nat
deriving DecidableEq, Repr

def SandboxMemoryHandle.get_id (h : SandboxMemoryHandle) : Nat := h.memory_id

/-- `SandboxMemory`: the `sandbox_binding` of a local memory. -/
inductive SandboxMemory where
  | synced (handle : SandboxMemoryHandle)
  | unsynced
deriving DecidableEq, Repr

/-- Caller-side `Memory`: page map, size in wasm pages, sandbox binding. -/
structure Memory where
  page_map : PageMap
  size : Nat
  sandbox_memory : SandboxMemory
deriving DecidableEq, Repr

/-- `OpenedWasm`: weak reference to the sandbox process (the pid) plus the
remote `WasmId` of the compiled module. -/
structure OpenedWasm where
  sandbox_process : Nat
  wasm_id : Nat
deriving DecidableEq, Repr

/-- `WasmBinary`: the wasm bytes together with the embedder cache
(`Mutex<Option<EmbedderCache>>`, holding an `OpenedWasm` when populated). -/
structure WasmBinary where
  binary : List Nat
  embedder_cache : Option OpenedWasm
deriving DecidableEq, Repr

abbrev HypervisorError := Nat

/-- Caller-side `ExecutionState` (the fields the controller touches). -/
structure ExecutionState where
  wasm_binary : WasmBinary
  wasm_memory : Memory
  stable_memory : Memory
  exported_globals : List Int
deriving DecidableEq, Repr

structure InstanceStats where
  accessed_pages : Nat
  dirty_pages : Nat
deriving DecidableEq, Repr

instance {ε α : Type} [DecidableEq ε] [DecidableEq α] :
    DecidableEq (Except ε α) := fun a b =>
  match a, b with
  | .ok x, .ok y =>
      if h : x = y then .isTrue (by rw [h]) else .isFalse (by simp [h])
  | .error x, .error y =>
      if h : x = y then .isTrue (by rw [h]) else .isFalse (by simp [h])
  | .ok _, .error _ => .isFalse (by simp)
  | .error _, .ok _ => .isFalse (by simp)

structure WasmExecutionOutput where
  wasm_result : Except HypervisorError Nat
  num_instructions_left : Nat
  instance_stats : InstanceStats
deriving DecidableEq, Repr

abbrev SystemStateChanges := Nat

def SystemStateChanges.default : SystemStateChanges := 0

/-- Per-memory part of the sandbox reply's `StateModifications`. -/
structure MemoryModifications where
  page_delta : List Nat
  size : Nat
deriving DecidableEq, Repr

structure StateModifications where
  wasm_memory : MemoryModifications
  stable_memory : MemoryModifications
  globals : List Int
  subnet_available_memory : Int
  system_state_changes : SystemStateChanges
deriving DecidableEq, Repr

structure SandboxExecOutput where
  wasm : WasmExecutionOutput
  state : Option StateModifications
deriving DecidableEq, Repr

def Except.is_ok : Except HypervisorError Nat → Bool
  | .ok _ => true
  | .error _ => false

/-- RPC messages sent from the controller to a sandbox worker. -/
inductive Msg where
  | openWasm (wasm_id : Nat) (wasm_src : List Nat)
  | closeWasm (wasm_id : Nat)
  | openMemory (memory_id : Nat) (page_map : PageMapSerialization) (num_wasm_pages : Nat)
  | closeMemory (memory_id : Nat)
  | startExecution (exec_id wasm_id wasm_memory_id stable_memory_id
      next_wasm_memory_id next_stable_memory_id : Nat)
  | terminate
deriving DecidableEq, Repr

def Msg.isStartExecution : Msg → Bool
  | .startExecution _ _ _ _ _ _ => true
  | _ => false

/-- Controller-side mutable state threaded through the model: the fresh-id
counters behind `WasmId::new` / `MemoryId::new` / execution registration, the
trace of RPC messages sent (tagged by target pid), the shared
subnet-available-memory cell, and the set of registered execution ids. -/
structure CtrlState where
  nextWasmId : Nat
  nextMemoryId : Nat
  nextExecId : Nat
  trace : List (Nat × Msg)
  subnetAvailableMemory : Int
  registeredExecs : List Nat
deriving DecidableEq, Repr

/-! ## Registry (`backends: HashMap<CanisterId, Backend>`) -/

/-- Registry slot for one canister. -/
inductive Backend where
  | active (sandbox_process : SandboxProcess) (last_used : Nat)
  | evicted (sandbox_process : Nat)
  | empty
deriving DecidableEq, Repr

abbrev Registry := List (Nat × Backend)

def Registry.find : Registry → Nat → Option Backend
  | [], _ => none
  | (c, b) :: r, c' => if c = c' then some b else Registry.find r c'

def Registry.insert : Registry → Nat → Backend → Registry
  | [], c, b => [(c, b)]
  | (c', b') :: r, c, b =>
      if c' = c then (c, b) :: r else (c', b') :: Registry.insert r c b

def SANDBOX_PROCESS_INACTIVE_TIME_BEFORE_EVICTION : Nat := 0
def SANDBOX_PROCESS_UPDATE_INTERVAL : Nat := 10

/-- The `if let Some(backend) = guard.get_mut(..)` block of
`get_sandbox_process`: the live process found in the slot, if any
(an `Evicted` slot yields one exactly when its weak reference upgrades). -/
def slotFound (live : List Nat) (registry : Registry) (canister_id : Nat) :
    Option SandboxProcess :=
  match Registry.find registry canister_id with
  | some (.active sp _) => some sp
  | some (.evicted w) => if w ∈ live then some ⟨w⟩ else none
  | some .empty => none
  | none => none

/-- `SandboxedExecutionController::get_sandbox_process`.  `spawn` is the
process that `create_sandbox_process` would produce, `now` the current
instant.  Returns the acquired process and the updated registry. -/
def get_sandbox_process (live : List Nat) (spawn : SandboxProcess) (now : Nat)
    (registry : Registry) (canister_id : Nat) : SandboxProcess × Registry :=
  match slotFound live registry canister_id with
  | some sandbox_process =>
      if SANDBOX_PROCESS_INACTIVE_TIME_BEFORE_EVICTION > 0 then
        (sandbox_process,
          registry.insert canister_id (.active sandbox_process now))
      else
        (sandbox_process,
          registry.insert canister_id (.evicted sandbox_process.pid))
  | none =>
      (spawn, registry.insert canister_id (.active spawn now))

def acquiredProcess (live : List Nat) (spawn : SandboxProcess) (now : Nat)
    (registry : Registry) (canister_id : Nat) : SandboxProcess :=
  (get_sandbox_process live spawn now registry canister_id).1

/-! ## Lock/spawn event trace of `get_sandbox_process` (for the locking
discipline).  The registry mutex is taken at the top of the function
(`self.backends.lock()`) and the guard lives until the function returns, so
the reuse path is acquire–release and the spawn path is
acquire–spawn–release. -/

inductive Event where
  | lockAcquire
  | lockRelease
  | spawnProcess (pid : Nat)
deriving DecidableEq, Repr

def Event.isSpawn : Event → Bool
  | .spawnProcess _ => true
  | _ => false

def get_sandbox_process_events (live : List Nat) (spawn : SandboxProcess)
    (registry : Registry) (canister_id : Nat) : List Event :=
  match slotFound live registry canister_id with
  | some _ => [.lockAcquire, .lockRelease]
  | none => [.lockAcquire, .spawnProcess spawn.pid, .lockRelease]

/-- Does some spawn event occur while the lock depth is positive?
(`d` is the current lock depth.) -/
def spawnWhileLocked : Nat → List Event → Bool
  | _, [] => false
  | d, .lockAcquire :: rest => spawnWhileLocked (d + 1) rest
  | d, .lockRelease :: rest => spawnWhileLocked (d - 1) rest
  | d, .spawnProcess _ :: rest => decide (0 < d) || spawnWhileLocked d rest

/-- Does a `lockRelease` occur strictly before some spawn event? -/
def releaseBeforeSpawn : List Event → Bool
  | [] => false
  | .lockRelease :: rest => rest.any Event.isSpawn || releaseBeforeSpawn rest
  | _ :: rest => releaseBeforeSpawn rest

/-! ## Sweeper (`scavenge_sandbox_processes`) -/

/-- One slot transition of the sweeper: `Active` slots are collected and
demoted to `Evicted` when idle longer than the threshold; `Evicted` slots are
collected when the weak reference upgrades and replaced by `Empty` when it is
dead; `Empty` slots stay `Empty`. -/
def scavengeSlot (live : List Nat) (now : Nat) :
    Backend → Option SandboxProcess × Backend
  | .active sandbox_process last_used =>
      let inactive_time := now - last_used
      (some sandbox_process,
        if inactive_time > SANDBOX_PROCESS_INACTIVE_TIME_BEFORE_EVICTION then
          .evicted sandbox_process.pid
        else
          .active sandbox_process last_used)
  | .evicted w =>
      if w ∈ live then (some ⟨w⟩, .evicted w) else (none, .empty)
  | .empty => (none, .empty)

/-- `scavenge_sandbox_processes`: walks all slots under the registry lock,
returning the still-alive processes and the updated registry. -/
def scavenge_sandbox_processes (live : List Nat) (now : Nat) :
    Registry → List SandboxProcess × Registry
  | [] => ([], [])
  | (c, b) :: rest =>
      let s := scavengeSlot live now b
      let r := scavenge_sandbox_processes live now rest
      (match s.1 with
       | some sandbox_process => sandbox_process :: r.1
       | none => r.1,
       (c, s.2) :: r.2)

/-! ## Crash watcher (`observe_sandbox_process` / `panic_due_to_sandbox_exit`) -/

/-- The panic message of `panic_due_to_sandbox_exit`, as structured data:
each constructor records exactly the values interpolated into the
corresponding format string. -/
inductive PanicMsg where
  | exitCode (canister_id pid : Nat) (code : Int)
  | exitSignal (canister_id pid : Nat) (signal : Int)
  | unknown (canister_id pid : Nat)
deriving DecidableEq, Repr

def PanicMsg.canister : PanicMsg → Nat
  | .exitCode c _ _ => c
  | .exitSignal c _ _ => c
  | .unknown c _ => c

def PanicMsg.pidOf : PanicMsg → Nat
  | .exitCode _ p _ => p
  | .exitSignal _ p _ => p
  | .unknown _ p => p

def panic_due_to_sandbox_exit (code signal : Option Int)
    (canister_id pid : Nat) : PanicMsg :=
  match code with
  | some c => .exitCode canister_id pid c
  | none =>
      match signal with
      | some s => .exitSignal canister_id pid s
      | none => .unknown canister_id pid

/-! ## Module and memory handles (`open_wasm`, `open_remote_memory`) -/

/-- The fresh-compile path of `open_wasm`: mint a `WasmId`, send `OpenWasm`
synchronously, and on acknowledgement store a new `OpenedWasm` in the
embedder cache.  `reply` is the sandbox's acknowledgement; on an error reply
the cache is left untouched. -/
def openWasmFresh (sp : SandboxProcess) (wasm_binary : WasmBinary)
    (reply : Except HypervisorError Unit) (st : CtrlState) :
    Except HypervisorError (Nat × Nat) × WasmBinary × CtrlState :=
  let wasm_id := st.nextWasmId
  let st' := { st with
    nextWasmId := st.nextWasmId + 1,
    trace := st.trace ++ [(sp.pid, .openWasm wasm_id wasm_binary.binary)] }
  match reply with
  | .error err => (.error err, wasm_binary, st')
  | .ok () =>
      (.ok (wasm_id, 1),
       { wasm_binary with embedder_cache := some ⟨sp.pid, wasm_id⟩ },
       st')

/-- `open_wasm`: consult the embedder cache first; a cached `OpenedWasm`
whose weak reference upgrades must point at this very process
(`assert!(Arc::ptr_eq(..))`, modelled as returning `none` on mismatch) and is
returned with compile count 0; otherwise compile freshly.  Returns the
possibly-updated binary (cache) and controller state. -/
def open_wasm (live : List Nat) (sp : SandboxProcess) (wasm_binary : WasmBinary)
    (reply : Except HypervisorError Unit) (st : CtrlState) :
    Option (Except HypervisorError (Nat × Nat) × WasmBinary × CtrlState) :=
  match wasm_binary.embedder_cache with
  | some opened_wasm =>
      if opened_wasm.sandbox_process ∈ live then
        if opened_wasm.sandbox_process = sp.pid then
          some (.ok (opened_wasm.wasm_id, 0), wasm_binary, st)
        else
          none
      else
        some (openWasmFresh sp wasm_binary reply st)
  | none => some (openWasmFresh sp wasm_binary reply st)

def wrap_remote_memory (sp : SandboxProcess) (memory_id : Nat) :
    SandboxMemoryHandle :=
  { sandbox_process := sp, memory_id := memory_id }

/-- `open_remote_memory`: a `Synced` binding returns a clone of its handle;
an `Unsynced` binding asserts that the serialized page map has no deltas
(`none` models the panic), mints a fresh `MemoryId`, sends `OpenMemory`
fire-and-forget, stores `Synced(handle)` and returns the handle together
with the updated memory. -/
def open_remote_memory (sp : SandboxProcess) (memory : Memory)
    (st : CtrlState) : Option (SandboxMemoryHandle × Memory × CtrlState) :=
  match memory.sandbox_memory with
  | .synced id => some (id, memory, st)
  | .unsynced =>
      let serialized_page_map := memory.page_map.serialize
      if serialized_page_map.page_delta.isEmpty
          && serialized_page_map.round_delta.isEmpty then
        let memory_id := st.nextMemoryId
        let st' := { st with
          nextMemoryId := st.nextMemoryId + 1,
          trace := st.trace ++
            [(sp.pid, .openMemory memory_id serialized_page_map memory.size)] }
        let handle := wrap_remote_memory sp memory_id
        some (handle, { memory with sandbox_memory := .synced handle }, st')
      else
        none

/-! ## Execution dispatcher (`SandboxedExecutionController::process`) -/

structure WasmExecutionInput where
  canister_id : Nat
  execution_state : ExecutionState
deriving DecidableEq, Repr

/-- Oracle for the environment's replies during one `process` call: the
acknowledgement of `OpenWasm` (if one is sent) and the `SandboxExecOutput`
received on the completion channel. -/
structure ProcessEnv where
  open_wasm_reply : Except HypervisorError Unit
  exec_output : SandboxExecOutput
deriving DecidableEq, Repr

/-- `SandboxedExecutionController::process`.  Acquires a worker, ensures the
module is compiled (returning early with the compile error), registers the
execution, opens both memories, dispatches `StartExecution`, and on the
reply commits state exactly when `wasm_result` is `Ok` and `state` is
`Some`.  `none` models a panic (failed assertion in `open_wasm` or
`open_remote_memory`). -/
def process (live : List Nat) (spawn : SandboxProcess) (now : Nat)
    (registry : Registry) (input : WasmExecutionInput) (env : ProcessEnv)
    (st : CtrlState) :
    Option (WasmExecutionOutput × ExecutionState × SystemStateChanges ×
      Registry × CtrlState) :=
  let acq := get_sandbox_process live spawn now registry input.canister_id
  let sandbox_process := acq.1
  let registry' := acq.2
  let execution_state := input.execution_state
  match open_wasm live sandbox_process execution_state.wasm_binary
      env.open_wasm_reply st with
  | none => none
  | some (.error err, wasm_binary', st₁) =>
      some
        ({ wasm_result := .error err,
           num_instructions_left := 0,
           instance_stats := { accessed_pages := 0, dirty_pages := 0 } },
         { execution_state with wasm_binary := wasm_binary' },
         SystemStateChanges.default, registry', st₁)
  | some (.ok (wasm_id, _compile_count), wasm_binary', st₁) =>
      let execution_state := { execution_state with wasm_binary := wasm_binary' }
      let exec_id := st₁.nextExecId
      let st₂ := { st₁ with
        nextExecId := st₁.nextExecId + 1,
        registeredExecs := st₁.registeredExecs ++ [exec_id] }
      match open_remote_memory sandbox_process execution_state.wasm_memory st₂ with
      | none => none
      | some (wasm_memory_handle, wasm_memory', st₃) =>
        let execution_state := { execution_state with wasm_memory := wasm_memory' }
        let wasm_memory_id := wasm_memory_handle.get_id
        let next_wasm_memory_id := st₃.nextMemoryId
        let st₄ := { st₃ with nextMemoryId := st₃.nextMemoryId + 1 }
        match open_remote_memory sandbox_process execution_state.stable_memory st₄ with
        | none => none
        | some (stable_memory_handle, stable_memory', st₅) =>
          let execution_state := { execution_state with stable_memory := stable_memory' }
          let stable_memory_id := stable_memory_handle.get_id
          let next_stable_memory_id := st₅.nextMemoryId
          let st₆ := { st₅ with nextMemoryId := st₅.nextMemoryId + 1 }
          let st₇ := { st₆ with trace := st₆.trace ++
            [(sandbox_process.pid,
              .startExecution exec_id wasm_id wasm_memory_id stable_memory_id
                next_wasm_memory_id next_stable_memory_id)] }
          let exec_output := env.exec_output
          match exec_output.wasm.wasm_result, exec_output.state with
          | .ok _, some state_modifications =>
              let execution_state := { execution_state with
                wasm_memory := {
                  page_map := execution_state.wasm_memory.page_map.deserialize_delta
                    state_modifications.wasm_memory.page_delta,
                  size := state_modifications.wasm_memory.size,
                  sandbox_memory := .synced
                    (wrap_remote_memory sandbox_process next_wasm_memory_id) },
                stable_memory := {
                  page_map := execution_state.stable_memory.page_map.deserialize_delta
                    state_modifications.stable_memory.page_delta,
                  size := state_modifications.stable_memory.size,
                  sandbox_memory := .synced
                    (wrap_remote_memory sandbox_process next_stable_memory_id) },
                exported_globals := state_modifications.globals }
              let st₈ := { st₇ with
                subnetAvailableMemory := state_modifications.subnet_available_memory }
              some (exec_output.wasm, execution_state,
                state_modifications.system_state_changes, registry', st₈)
          | .ok _, none =>
              some (exec_output.wasm, execution_state,
                SystemStateChanges.default, registry', st₇)
          | .error _, _ =>
              some (exec_output.wasm, execution_state,
                SystemStateChanges.default, registry', st₇)

/-- The body of the watcher thread spawned by `observe_sandbox_process`,
run at the moment the child exits: `some msg` means the controller panics
with `msg`, `none` means the watcher returns silently. -/
def observe_sandbox_process_exit (live : List Nat) (canister_id pid : Nat)
    (code signal : Option Int) : Option PanicMsg :=
  if pid ∈ live then
    some (panic_due_to_sandbox_exit code signal canister_id pid)
  else
    none

/-! ## Predicates used in the claim statements -/

/-- The invariant claimed for `Unsynced` bindings: the page map carries no
deltas (it has never been mutated since the last full serialization). -/
def memSyncInvariant (m : Memory) : Prop :=
  m.sandbox_memory = .unsynced →
    m.page_map.page_delta = [] ∧ m.page_map.round_delta = []

instance (m : Memory) : Decidable (memSyncInvariant m) := by
  unfold memSyncInvariant; infer_instance

/-- The embedder cache misses for this `live` set: it is empty or holds a
handle whose weak reference is dead, so `open_wasm` takes the fresh path. -/
def wasmCacheMiss (live : List Nat) (wb : WasmBinary) : Prop :=
  match wb.embedder_cache with
  | some ow => ow.sandbox_process ∉ live
  | none => True

instance (live : List Nat) (wb : WasmBinary) :
    Decidable (wasmCacheMiss live wb) := by
  unfold wasmCacheMiss
  rcases wb.embedder_cache with _ | ow <;> infer_instance

/-- Conditions under which `open_wasm` neither fails nor panics: a cached
handle with a live weak reference points at the process in use, and when the
fresh path is taken the sandbox acknowledges the compilation. -/
def ensureWasmOk (live : List Nat) (sp : SandboxProcess) (wb : WasmBinary)
    (reply : Except HypervisorError Unit) : Prop :=
  match wb.embedder_cache with
  | some ow =>
      (ow.sandbox_process ∈ live → ow.sandbox_process = sp.pid) ∧
      (ow.sandbox_process ∉ live → reply = Except.ok ())
  | none => reply = Except.ok ()

instance (live : List Nat) (sp : SandboxProcess) (wb : WasmBinary)
    (reply : Except HypervisorError Unit) :
    Decidable (ensureWasmOk live sp wb reply) :=
  match wb with
  | ⟨_, none⟩ => (inferInstance : Decidable (reply = Except.ok ()))
  | ⟨_, some ow⟩ =>
      (inferInstance : Decidable
        ((ow.sandbox_process ∈ live → ow.sandbox_process = sp.pid) ∧
         (ow.sandbox_process ∉ live → reply = Except.ok ())))

/-- How a memory's binding may evolve across a `process` call that does not
commit: a `Synced` binding is preserved, an `Unsynced` binding may only have
been replaced by a `Synced` handle on the acquired process (by
`open_remote_memory` before dispatch). -/
def bindingEvolution (sp : SandboxProcess) (m m' : Memory) : Prop :=
  (∀ h, m.sandbox_memory = .synced h → m'.sandbox_memory = .synced h) ∧
  (m.sandbox_memory = .unsynced →
    ∃ mid, m'.sandbox_memory = .synced (wrap_remote_memory sp mid))

/-! ## Statements of the dispatcher claims -/

/-- Post-condition of `process` on the reply-commit protocol: the output is
the sandbox's `wasm_result`; when the result is `Ok` and the reply carries
`Some` state the page deltas are merged, sizes taken from the reply, the
bindings replaced with `Synced` around the `next_*_memory_id`s sent in this
call's `StartExecution`, globals and the subnet-available-memory cell
updated, and the reply's system-state changes returned; when the result is
`Ok` with `None` state, or `Err`, the local page maps, sizes and globals are
unchanged and default system-state changes are returned — with the bindings
possibly switched from `Unsynced` to `Synced` by `open_remote_memory`
before dispatch. -/
def C1Post (live : List Nat) (spawn : SandboxProcess) (now : Nat)
    (registry : Registry) (input : WasmExecutionInput) (env : ProcessEnv)
    (st : CtrlState) : Prop :=
  let sp := acquiredProcess live spawn now registry input.canister_id
  let es0 := input.execution_state
  ∃ es ssc reg' st',
    process live spawn now registry input env st =
      some (env.exec_output.wasm, es, ssc, reg', st') ∧
    (∀ sm, env.exec_output.state = some sm →
      Except.is_ok env.exec_output.wasm.wasm_result = true →
      es.wasm_memory.page_map =
        es0.wasm_memory.page_map.deserialize_delta sm.wasm_memory.page_delta ∧
      es.wasm_memory.size = sm.wasm_memory.size ∧
      es.stable_memory.page_map =
        es0.stable_memory.page_map.deserialize_delta sm.stable_memory.page_delta ∧
      es.stable_memory.size = sm.stable_memory.size ∧
      es.exported_globals = sm.globals ∧
      st'.subnetAvailableMemory = sm.subnet_available_memory ∧
      ssc = sm.system_state_changes ∧
      (∃ eid wid wmid smid nwid nsid,
        (sp.pid, Msg.startExecution eid wid wmid smid nwid nsid) ∈ st'.trace ∧
        es.wasm_memory.sandbox_memory =
          .synced (wrap_remote_memory sp nwid) ∧
        es.stable_memory.sandbox_memory =
          .synced (wrap_remote_memory sp nsid))) ∧
    (env.exec_output.state = none →
      Except.is_ok env.exec_output.wasm.wasm_result = true →
      es.wasm_memory.page_map = es0.wasm_memory.page_map ∧
      es.wasm_memory.size = es0.wasm_memory.size ∧
      es.stable_memory.page_map = es0.stable_memory.page_map ∧
      es.stable_memory.size = es0.stable_memory.size ∧
      es.exported_globals = es0.exported_globals ∧
      ssc = SystemStateChanges.default ∧
      st'.subnetAvailableMemory = st.subnetAvailableMemory ∧
      bindingEvolution sp es0.wasm_memory es.wasm_memory ∧
      bindingEvolution sp es0.stable_memory es.stable_memory) ∧
    (Except.is_ok env.exec_output.wasm.wasm_result = false →
      es.wasm_memory.page_map = es0.wasm_memory.page_map ∧
      es.wasm_memory.size = es0.wasm_memory.size ∧
      es.stable_memory.page_map = es0.stable_memory.page_map ∧
      es.stable_memory.size = es0.stable_memory.size ∧
      es.exported_globals = es0.exported_globals ∧
      ssc = SystemStateChanges.default ∧
      st'.subnetAvailableMemory = st.subnetAvailableMemory)

/-- Post-condition of `process` when `open_wasm` fails with a compile error:
the output carries that error with zero instructions and empty stats, the
execution state is returned unchanged, default system-state changes are
returned, no execution is registered, and the only message sent is the
`OpenWasm` request — in particular no `StartExecution`. -/
def C2Post (live : List Nat) (spawn : SandboxProcess) (now : Nat)
    (registry : Registry) (input : WasmExecutionInput) (env : ProcessEnv)
    (st : CtrlState) (err : HypervisorError) : Prop :=
  let sp := acquiredProcess live spawn now registry input.canister_id
  let st' := { st with
    nextWasmId := st.nextWasmId + 1,
    trace := st.trace ++
      [(sp.pid, Msg.openWasm st.nextWasmId input.execution_state.wasm_binary.binary)] }
  process live spawn now registry input env st =
    some ({ wasm_result := .error err, num_instructions_left := 0,
            instance_stats := { accessed_pages := 0, dirty_pages := 0 } },
          input.execution_state, SystemStateChanges.default,
          (get_sandbox_process live spawn now registry input.canister_id).2,
          st') ∧
  st'.registeredExecs = st.registeredExecs ∧
  st'.nextExecId = st.nextExecId ∧
  ∀ p m, (p, m) ∈ st'.trace →
    (p, m) ∈ st.trace ∨ m.isStartExecution = false

/-- Post-condition of `process` on an `Err` reply: the returned execution
state matches the input state on page maps, sizes and exported globals,
default system-state changes are returned, and the bindings at most changed
from `Unsynced` to `Synced` by `open_remote_memory` before dispatch. -/
def C3Post (live : List Nat) (spawn : SandboxProcess) (now : Nat)
    (registry : Registry) (input : WasmExecutionInput) (env : ProcessEnv)
    (st : CtrlState) : Prop :=
  let sp := acquiredProcess live spawn now registry input.canister_id
  let es0 := input.execution_state
  ∃ es reg' st',
    process live spawn now registry input env st =
      some (env.exec_output.wasm, es, SystemStateChanges.default, reg', st') ∧
    es.wasm_memory.page_map = es0.wasm_memory.page_map ∧
    es.wasm_memory.size = es0.wasm_memory.size ∧
    es.stable_memory.page_map = es0.stable_memory.page_map ∧
    es.stable_memory.size = es0.stable_memory.size ∧
    es.exported_globals = es0.exported_globals ∧
    bindingEvolution sp es0.wasm_memory es.wasm_memory ∧
    bindingEvolution sp es0.stable_memory es.stable_memory

/-! ## Concrete fixtures for witnesses and counterexamples -/

def stZero : CtrlState :=
  { nextWasmId := 0, nextMemoryId := 0, nextExecId := 0, trace := [],
    subnetAvailableMemory := 0, registeredExecs := [] }

def pmClean : PageMap := { base := [1, 2], page_delta := [], round_delta := [] }

def memUnsyncedW : Memory :=
  { page_map := pmClean, size := 4, sandbox_memory := .unsynced }

def memSyncedW : Memory :=
  { page_map := pmClean, size := 4,
    sandbox_memory := .synced { sandbox_process := ⟨1⟩, memory_id := 9 } }

def wbFreshW : WasmBinary := { binary := [0, 97], embedder_cache := none }

def esW : ExecutionState :=
  { wasm_binary := wbFreshW, wasm_memory := memUnsyncedW,
    stable_memory := memUnsyncedW, exported_globals := [3] }

def inputW : WasmExecutionInput := { canister_id := 0, execution_state := esW }

def smW : StateModifications :=
  { wasm_memory := { page_delta := [7], size := 5 },
    stable_memory := { page_delta := [8], size := 6 },
    globals := [4], subnet_available_memory := 11,
    system_state_changes := 2 }

def envOkSomeW : ProcessEnv :=
  { open_wasm_reply := .ok (),
    exec_output :=
      { wasm := { wasm_result := .ok 0, num_instructions_left := 5,
                  instance_stats := { accessed_pages := 1, dirty_pages := 1 } },
        state := some smW } }

def envOkNoneW : ProcessEnv :=
  { open_wasm_reply := .ok (),
    exec_output :=
      { wasm := { wasm_result := .ok 0, num_instructions_left := 5,
                  instance_stats := { accessed_pages := 1, dirty_pages := 1 } },
        state := none } }

def envErrW : ProcessEnv :=
  { open_wasm_reply := .ok (),
    exec_output :=
      { wasm := { wasm_result := .error 13, num_instructions_left := 0,
                  instance_stats := { accessed_pages := 0, dirty_pages := 0 } },
        state := none } }

def envCompileErrW : ProcessEnv :=
  { open_wasm_reply := .error 21,
    exec_output :=
      { wasm := { wasm_result := .ok 0, num_instructions_left := 0,
                  instance_stats := { accessed_pages := 0, dirty_pages := 0 } },
        state := none } }

/-! ## Theorems -/

theorem Registry.find_insert_self (r : Registry) (c : Nat) (b : Backend) :
    Registry.find (Registry.insert r c b) c = some b := by
  induction r with
  | nil => simp [Registry.insert, Registry.find]
  | cons hd tl ih =>
      obtain ⟨c', b'⟩ := hd
      by_cases h : c' = c
      · simp [Registry.insert, Registry.find, h]
      · simp [Registry.insert, Registry.find, h, ih]

/-- **C4**: calling `open_wasm` twice with the same (live) worker and the
binary/cache produced by a successful first call returns the same `WasmId`,
with compile count 0 and no change to the cache or the controller state — in
particular no second `OpenWasm` RPC is sent. -/
theorem open_wasm_idempotent (live : List Nat) (sp : SandboxProcess)
    (wb : WasmBinary) (reply reply' : Except HypervisorError Unit)
    (st : CtrlState) (wasm_id compile_count : Nat) (wb' : WasmBinary)
    (st' : CtrlState) (hlive : sp.pid ∈ live)
    (hfirst : open_wasm live sp wb reply st =
      some (.ok (wasm_id, compile_count), wb', st')) :
    open_wasm live sp wb' reply' st' = some (.ok (wasm_id, 0), wb', st') := by
  rcases hc : wb.embedder_cache with _ | ow
  · cases reply with
    | error e => simp [open_wasm, hc, openWasmFresh] at hfirst
    | ok u =>
        simp [open_wasm, hc, openWasmFresh] at hfirst
        obtain ⟨⟨hid, -⟩, hwb, hst⟩ := hfirst
        subst hid hwb hst
        simp [open_wasm, hlive]
  · by_cases hm : ow.sandbox_process ∈ live
    · by_cases hp : ow.sandbox_process = sp.pid
      · rw [open_wasm] at hfirst
        simp only [hc, if_pos hm, if_pos hp, Option.some.injEq,
          Prod.mk.injEq, Except.ok.injEq] at hfirst
        obtain ⟨⟨hid, -⟩, hwb, hst⟩ := hfirst
        subst hid hwb hst
        simp [open_wasm, hc, hm, hp, hlive]
      · rw [open_wasm] at hfirst
        simp only [hc, if_pos hm, if_neg hp] at hfirst
        exact Option.noConfusion hfirst
    · cases reply with
      | error e => simp [open_wasm, hc, hm, openWasmFresh] at hfirst
      | ok u =>
          simp [open_wasm, hc, hm, openWasmFresh] at hfirst
          obtain ⟨⟨hid, -⟩, hwb, hst⟩ := hfirst
          subst hid hwb hst
          simp [open_wasm, hlive]

theorem open_wasm_idempotent_witness :
    open_wasm [7] ⟨7⟩ { binary := [1], embedder_cache := some ⟨7, 5⟩ }
      (.ok ()) stZero =
    some (.ok (5, 0), { binary := [1], embedder_cache := some ⟨7, 5⟩ },
      stZero) :=
  open_wasm_idempotent [7] ⟨7⟩ { binary := [1], embedder_cache := some ⟨7, 5⟩ }
    (.ok ()) (.ok ()) stZero 5 0
    { binary := [1], embedder_cache := some ⟨7, 5⟩ } stZero
    (by decide) (by decide)

/-- **C5** (counterexample): a slot that is `Evicted` with a dead weak
reference is not dropped from the registry by the sweeper — after the pass
the canister's entry is still present, holding `Empty`. -/
theorem scavenge_dead_slot_remains :
    Registry.find (scavenge_sandbox_processes [] 0 [(0, .evicted 5)]).2 0 =
      some .empty ∧
    Registry.find (scavenge_sandbox_processes [] 0 [(0, .evicted 5)]).2 0 ≠
      none := by
  decide

/-- **C5** (amended): on a sweeper pass every slot is rewritten in place:
an `Active` slot idle for longer than the threshold is demoted to `Evicted`,
an `Evicted` slot with a dead weak reference is replaced by `Empty`
(the map entry remains present), and the canister's entry is never
removed. -/
theorem scavenge_slot_transitions (live : List Nat) (now : Nat)
    (registry : Registry) (c : Nat) :
    Registry.find (scavenge_sandbox_processes live now registry).2 c =
      (Registry.find registry c).map (fun b => (scavengeSlot live now b).2) ∧
    (∀ sp lu, (scavengeSlot live now (.active sp lu)).2 =
      if now - lu > SANDBOX_PROCESS_INACTIVE_TIME_BEFORE_EVICTION then
        .evicted sp.pid
      else .active sp lu) ∧
    (∀ w, (scavengeSlot live now (.evicted w)).2 =
      if w ∈ live then .evicted w else .empty) := by
  refine ⟨?_, fun sp lu => rfl, fun w => ?_⟩
  · induction registry with
    | nil => rfl
    | cons hd tl ih =>
        obtain ⟨c', b⟩ := hd
        by_cases h : c' = c <;>
          simp [scavenge_sandbox_processes, Registry.find, h, ih]
  · by_cases h : w ∈ live <;> simp [scavengeSlot, h]

/-- **C6** (counterexample): an acquire that has to spawn leaves the slot
stored as `Active`, not `Evicted`, even though the idle threshold is 0. -/
theorem get_sandbox_process_spawn_inserts_active :
    Registry.find (get_sandbox_process [] ⟨7⟩ 3 [] 0).2 0 =
      some (.active ⟨7⟩ 3) ∧
    Registry.find (get_sandbox_process [] ⟨7⟩ 3 [] 0).2 0 ≠
      some (.evicted 7) := by
  decide

/-- **C6** (amended): with the idle threshold hard-coded to 0, an acquire
that finds a live worker (an `Active` slot, or an `Evicted` slot whose weak
reference upgrades) stores the slot back as `Evicted`; an acquire that has
to spawn inserts an `Active` slot (demoted only by a later sweeper pass). -/
theorem get_sandbox_process_slot_after (live : List Nat)
    (spawn : SandboxProcess) (now : Nat) (registry : Registry) (cid : Nat) :
    (∀ sp, slotFound live registry cid = some sp →
      get_sandbox_process live spawn now registry cid =
        (sp, Registry.insert registry cid (.evicted sp.pid))) ∧
    (slotFound live registry cid = none →
      get_sandbox_process live spawn now registry cid =
        (spawn, Registry.insert registry cid (.active spawn now))) := by
  constructor
  · intro sp h
    simp [get_sandbox_process, h, SANDBOX_PROCESS_INACTIVE_TIME_BEFORE_EVICTION]
  · intro h
    simp [get_sandbox_process, h]

theorem get_sandbox_process_slot_after_witness :
    get_sandbox_process [3] ⟨9⟩ 2 [(0, .evicted 3)] 0 =
      (⟨3⟩, [(0, .evicted 3)]) :=
  (get_sandbox_process_slot_after [3] ⟨9⟩ 2 [(0, .evicted 3)] 0).1 ⟨3⟩
    (by decide)

/-- **C7** (counterexample): the sweeper leaves `Empty` in the slot of a
dead evicted worker after its critical section ends; a later acquire (a new
critical section) observes that `Empty` on lookup and treats it as absent,
spawning a fresh worker. -/
theorem sweeper_empty_observed_later :
    Registry.find (scavenge_sandbox_processes [] 0 [(1, .evicted 5)]).2 1 =
      some .empty ∧
    get_sandbox_process [] ⟨7⟩ 2
        (scavenge_sandbox_processes [] 0 [(1, .evicted 5)]).2 1 =
      (⟨7⟩, [(1, .active ⟨7⟩ 2)]) := by
  decide

/-- **C7** (amended): `get_sandbox_process` itself never leaves an `Empty`
slot behind, and it treats an observed `Empty` as an absent worker; but
`Empty` is not confined to the installing critical section — the sweeper
leaves it in place for dead workers, where later lookups observe it. -/
theorem registry_empty_slot_handling (live : List Nat)
    (spawn : SandboxProcess) (now : Nat) (registry : Registry) (cid : Nat) :
    Registry.find (get_sandbox_process live spawn now registry cid).2 cid ≠
      some .empty ∧
    (Registry.find registry cid = some .empty →
      get_sandbox_process live spawn now registry cid =
        (spawn, Registry.insert registry cid (.active spawn now))) := by
  constructor
  · rcases h : slotFound live registry cid with _ | sp <;>
      simp [get_sandbox_process, h,
        SANDBOX_PROCESS_INACTIVE_TIME_BEFORE_EVICTION,
        Registry.find_insert_self]
  · intro h
    have hs : slotFound live registry cid = none := by simp [slotFound, h]
    simp [get_sandbox_process, hs]

theorem registry_empty_slot_handling_witness :
    get_sandbox_process [] ⟨7⟩ 1 [(0, .empty)] 0 =
      (⟨7⟩, [(0, .active ⟨7⟩ 1)]) :=
  (registry_empty_slot_handling [] ⟨7⟩ 1 [(0, .empty)] 0).2 (by decide)

/-- **C8** (counterexample): on the spawn path `get_sandbox_process` spawns
the worker while the registry lock is held — no `lockRelease` precedes the
spawn event. -/
theorem spawn_under_lock :
    (get_sandbox_process_events [] ⟨7⟩ [] 0).any Event.isSpawn = true ∧
    releaseBeforeSpawn (get_sandbox_process_events [] ⟨7⟩ [] 0) = false ∧
    spawnWhileLocked 0 (get_sandbox_process_events [] ⟨7⟩ [] 0) = true := by
  decide

/-- **C8** (amended): `get_sandbox_process` runs under a single acquisition
of the registry mutex for the whole call: the reuse path is
acquire–release, and the spawn path is acquire–spawn–release, so the spawn
happens with the lock held and no release ever precedes a spawn. -/
theorem registry_lock_held_across_spawn (live : List Nat)
    (spawn : SandboxProcess) (registry : Registry) (cid : Nat) :
    (get_sandbox_process_events live spawn registry cid =
        [.lockAcquire, .lockRelease] ∨
      get_sandbox_process_events live spawn registry cid =
        [.lockAcquire, .spawnProcess spawn.pid, .lockRelease]) ∧
    (slotFound live registry cid = none →
      spawnWhileLocked 0 (get_sandbox_process_events live spawn registry cid) =
        true) ∧
    releaseBeforeSpawn (get_sandbox_process_events live spawn registry cid) =
      false := by
  rcases h : slotFound live registry cid with _ | sp <;>
    simp [get_sandbox_process_events, h, spawnWhileLocked, releaseBeforeSpawn,
      Event.isSpawn]

theorem registry_lock_held_across_spawn_witness :
    spawnWhileLocked 0 (get_sandbox_process_events [] ⟨7⟩ [] 1) = true :=
  (registry_lock_held_across_spawn [] ⟨7⟩ [] 1).2.1 (by decide)

/-- `open_wasm` under `ensureWasmOk` succeeds, changing only the wasm-id
counter and the trace (with no `StartExecution` message). -/
theorem open_wasm_ensured (live : List Nat) (sp : SandboxProcess)
    (wb : WasmBinary) (reply : Except HypervisorError Unit) (st : CtrlState)
    (h : ensureWasmOk live sp wb reply) :
    ∃ wasm_id compile_count wb' st₁,
      open_wasm live sp wb reply st =
        some (.ok (wasm_id, compile_count), wb', st₁) ∧
      st₁.nextMemoryId = st.nextMemoryId ∧
      st₁.nextExecId = st.nextExecId ∧
      st₁.subnetAvailableMemory = st.subnetAvailableMemory ∧
      st₁.registeredExecs = st.registeredExecs ∧
      ∃ tr, st₁.trace = st.trace ++ tr ∧
        ∀ e ∈ tr, Msg.isStartExecution e.2 = false := by
  rcases hc : wb.embedder_cache with _ | ow
  · simp only [ensureWasmOk, hc] at h
    subst h
    refine ⟨st.nextWasmId, 1,
      { wb with embedder_cache := some ⟨sp.pid, st.nextWasmId⟩ },
      { st with nextWasmId := st.nextWasmId + 1,
                trace := st.trace ++
                  [(sp.pid, Msg.openWasm st.nextWasmId wb.binary)] },
      ?_, rfl, rfl, rfl, rfl,
      [(sp.pid, Msg.openWasm st.nextWasmId wb.binary)], rfl, ?_⟩
    · simp [open_wasm, hc, openWasmFresh]
    · simp [Msg.isStartExecution]
  · simp only [ensureWasmOk, hc] at h
    obtain ⟨h1, h2⟩ := h
    by_cases hm : ow.sandbox_process ∈ live
    · have hp := h1 hm
      refine ⟨ow.wasm_id, 0, wb, st, ?_, rfl, rfl, rfl, rfl,
        [], by simp, by simp⟩
      rw [open_wasm]
      simp only [hc, if_pos hm, if_pos hp]
    · have hr := h2 hm
      subst hr
      refine ⟨st.nextWasmId, 1,
        { wb with embedder_cache := some ⟨sp.pid, st.nextWasmId⟩ },
        { st with nextWasmId := st.nextWasmId + 1,
                  trace := st.trace ++
                    [(sp.pid, Msg.openWasm st.nextWasmId wb.binary)] },
        ?_, rfl, rfl, rfl, rfl,
        [(sp.pid, Msg.openWasm st.nextWasmId wb.binary)], rfl, ?_⟩
      · simp [open_wasm, hc, hm, openWasmFresh]
      · simp [Msg.isStartExecution]

/-- `open_remote_memory` under the empty-delta invariant succeeds and
returns a handle that is stored in the binding; a `Synced` binding is
returned untouched, an `Unsynced` one gets the freshly minted id; only the
memory-id counter and trace (with no `StartExecution`) change. -/
theorem open_remote_memory_ensured (sp : SandboxProcess) (m : Memory)
    (st : CtrlState) (hinv : memSyncInvariant m) :
    ∃ hd st₁,
      open_remote_memory sp m st =
        some (hd, { m with sandbox_memory := .synced hd }, st₁) ∧
      (∀ h0, m.sandbox_memory = .synced h0 → hd = h0 ∧ st₁ = st) ∧
      (m.sandbox_memory = .unsynced →
        hd = wrap_remote_memory sp st.nextMemoryId) ∧
      st₁.nextWasmId = st.nextWasmId ∧
      st₁.nextExecId = st.nextExecId ∧
      st₁.subnetAvailableMemory = st.subnetAvailableMemory ∧
      st₁.registeredExecs = st.registeredExecs ∧
      ∃ tr, st₁.trace = st.trace ++ tr ∧
        ∀ e ∈ tr, Msg.isStartExecution e.2 = false := by
  obtain ⟨pm, sz, sm⟩ := m
  rcases sm with hd0 | _
  · refine ⟨hd0, st, by simp [open_remote_memory],
      fun h0 hh => ⟨SandboxMemory.synced.inj hh, rfl⟩,
      by simp, rfl, rfl, rfl, rfl, [], by simp, by simp⟩
  · obtain ⟨h1, h2⟩ := hinv rfl
    refine ⟨wrap_remote_memory sp st.nextMemoryId,
      { st with nextMemoryId := st.nextMemoryId + 1,
                trace := st.trace ++
                  [(sp.pid, Msg.openMemory st.nextMemoryId pm.serialize sz)] },
      ?_, by simp, fun _ => rfl, rfl, rfl, rfl, rfl,
      [(sp.pid, Msg.openMemory st.nextMemoryId pm.serialize sz)], rfl, ?_⟩
    · simp only [PageMap.serialize] at h1 h2 ⊢
      simp [open_remote_memory, PageMap.serialize, h1, h2, wrap_remote_memory]
    · simp [Msg.isStartExecution]

/-- **C1** (amended): the reply-commit protocol of `process` — on `Ok` plus
`Some` state the deltas are merged, sizes and globals taken from the reply,
the bindings replaced with `Synced` around the freshly minted
`next_*_memory_id`s named in this call's `StartExecution`, the
subnet-available-memory cell set and the reply's system-state changes
returned; on `Ok` plus `None`, and on `Err`, page maps, sizes and globals
are unchanged and default system-state changes are returned, the bindings
at most switching from `Unsynced` to `Synced` via `open_remote_memory`
before dispatch. -/
theorem process_reply_commit (live : List Nat) (spawn : SandboxProcess)
    (now : Nat) (registry : Registry) (input : WasmExecutionInput)
    (env : ProcessEnv) (st : CtrlState)
    (hw : ensureWasmOk live
      (acquiredProcess live spawn now registry input.canister_id)
      input.execution_state.wasm_binary env.open_wasm_reply)
    (hmw : memSyncInvariant input.execution_state.wasm_memory)
    (hms : memSyncInvariant input.execution_state.stable_memory) :
    C1Post live spawn now registry input env st := by
  unfold C1Post
  simp only [acquiredProcess] at hw ⊢
  obtain ⟨wid, cnt, wb', st₁, hOW, f1, f2, f3, f4, tr1, htr1, hns1⟩ :=
    open_wasm_ensured live
      (get_sandbox_process live spawn now registry input.canister_id).1
      input.execution_state.wasm_binary env.open_wasm_reply st hw
  obtain ⟨hd₁, st₃, hORM1, hsy1, hun1, g1, g2, g3, g4, tr2, htr2, hns2⟩ :=
    open_remote_memory_ensured
      (get_sandbox_process live spawn now registry input.canister_id).1
      input.execution_state.wasm_memory
      { st₁ with nextExecId := st₁.nextExecId + 1,
                 registeredExecs := st₁.registeredExecs ++ [st₁.nextExecId] }
      hmw
  obtain ⟨hd₂, st₅, hORM2, hsy2, hun2, k1, k2, k3, k4, tr3, htr3, hns3⟩ :=
    open_remote_memory_ensured
      (get_sandbox_process live spawn now registry input.canister_id).1
      input.execution_state.stable_memory
      { st₃ with nextMemoryId := st₃.nextMemoryId + 1 }
      hms
  rcases henv : env.exec_output.wasm.wasm_result with e | v
  · -- Err
    apply Exists.intro
    apply Exists.intro
    apply Exists.intro
    apply Exists.intro
    refine ⟨?heq, ?hsome, ?hnone, ?herr⟩
    case heq => simp only [process, hOW, hORM1, hORM2, henv]; rfl
    case hsome =>
      intro sm' _ hok
      exact absurd hok (by simp [Except.is_ok])
    case hnone =>
      intro _ hok
      exact absurd hok (by simp [Except.is_ok])
    case herr =>
      intro _
      refine ⟨by simp, by simp, by simp, by simp, by simp, rfl, ?_⟩
      simp [k3, g3, f3]
  · rcases hstate : env.exec_output.state with _ | sm
    · -- Ok, None
      apply Exists.intro
      apply Exists.intro
      apply Exists.intro
      apply Exists.intro
      refine ⟨?heq, ?hsome, ?hnone, ?herr⟩
      case heq => simp only [process, hOW, hORM1, hORM2, henv, hstate]; rfl
      case hsome =>
        intro sm' hsm'
        exact absurd hsm' (by simp)
      case hnone =>
        intro _ _
        refine ⟨by simp, by simp, by simp, by simp, by simp, rfl, ?_, ?_, ?_⟩
        · simp [k3, g3, f3]
        · exact ⟨fun h0 hh => by simp [(hsy1 h0 hh).1],
            fun hh => ⟨st₁.nextMemoryId, by simp [hun1 hh]⟩⟩
        · exact ⟨fun h0 hh => by simp [(hsy2 h0 hh).1],
            fun hh => ⟨st₃.nextMemoryId + 1, by simp [hun2 hh]⟩⟩
      case herr =>
        intro hok
        exact absurd hok (by simp [Except.is_ok])
    · -- Ok, Some
      apply Exists.intro
      apply Exists.intro
      apply Exists.intro
      apply Exists.intro
      refine ⟨?heq, ?hsome, ?hnone, ?herr⟩
      case heq => simp only [process, hOW, hORM1, hORM2, henv, hstate]; rfl
      case hsome =>
        intro sm' hsm' _
        obtain rfl := Option.some.inj hsm'
        refine ⟨by simp, by simp, by simp, by simp, by simp, by simp, by simp,
          st₁.nextExecId, wid, hd₁.get_id, hd₂.get_id,
          st₃.nextMemoryId, st₅.nextMemoryId, ?_, by simp, by simp⟩
        simp
      case hnone =>
        intro hnone
        exact absurd hnone (by simp)
      case herr =>
        intro hok
        exact absurd hok (by simp [Except.is_ok])

theorem process_reply_commit_witness :
    C1Post [] ⟨1⟩ 0 [] inputW envOkSomeW stZero :=
  process_reply_commit [] ⟨1⟩ 0 [] inputW envOkSomeW stZero
    (by decide) (by decide) (by decide)

/-- **C1** (counterexample): a `process` call whose reply is `Ok` with
`state = None` does modify an execution-state field — the `Unsynced` wasm
and stable bindings were switched to `Synced` by `open_remote_memory`
before dispatch, so the returned execution state differs from the input. -/
theorem process_commit_none_binding_changed :
    Except.is_ok envOkNoneW.exec_output.wasm.wasm_result = true ∧
    envOkNoneW.exec_output.state = none ∧
    (process [] ⟨1⟩ 0 [] inputW envOkNoneW stZero).isSome = true ∧
    Option.map (fun r => r.2.1) (process [] ⟨1⟩ 0 [] inputW envOkNoneW stZero)
      ≠ some inputW.execution_state := by
  decide

/-- **C2**: when `open_wasm` fails with a compile error, `process` returns
that error with zero instructions and empty stats, the input execution
state unchanged and default system-state changes; no execution is
registered and no `StartExecution` is sent. -/
theorem process_compile_error (live : List Nat) (spawn : SandboxProcess)
    (now : Nat) (registry : Registry) (input : WasmExecutionInput)
    (env : ProcessEnv) (st : CtrlState) (err : HypervisorError)
    (hmiss : wasmCacheMiss live input.execution_state.wasm_binary)
    (herr : env.open_wasm_reply = .error err) :
    C2Post live spawn now registry input env st err := by
  unfold C2Post
  rcases hc : input.execution_state.wasm_binary.embedder_cache with _ | ow
  · refine ⟨?_, rfl, rfl, ?_⟩
    · simp only [process, acquiredProcess, open_wasm, hc, openWasmFresh, herr]
    · intro p m hm
      rcases List.mem_append.1 hm with h | h
      · exact Or.inl h
      · right
        simp only [List.mem_singleton, Prod.mk.injEq] at h
        rw [h.2]
        rfl
  · simp only [wasmCacheMiss, hc] at hmiss
    refine ⟨?_, rfl, rfl, ?_⟩
    · simp only [process, acquiredProcess, open_wasm, hc, if_neg hmiss,
        openWasmFresh, herr]
    · intro p m hm
      rcases List.mem_append.1 hm with h | h
      · exact Or.inl h
      · right
        simp only [List.mem_singleton, Prod.mk.injEq] at h
        rw [h.2]
        rfl

theorem process_compile_error_witness :
    C2Post [] ⟨1⟩ 0 [] inputW envCompileErrW stZero 21 :=
  process_compile_error [] ⟨1⟩ 0 [] inputW envCompileErrW stZero 21
    (by decide) rfl

/-- **C3**: on an `Err` reply, the execution state returned by `process`
matches the input on page maps, sizes and exported globals, with default
system-state changes; the bindings at most changed from `Unsynced` to
`Synced` by the `open_remote_memory` calls made before dispatch. -/
theorem process_err_preserves_state (live : List Nat)
    (spawn : SandboxProcess) (now : Nat) (registry : Registry)
    (input : WasmExecutionInput) (env : ProcessEnv) (st : CtrlState)
    (e : HypervisorError)
    (hw : ensureWasmOk live
      (acquiredProcess live spawn now registry input.canister_id)
      input.execution_state.wasm_binary env.open_wasm_reply)
    (hmw : memSyncInvariant input.execution_state.wasm_memory)
    (hms : memSyncInvariant input.execution_state.stable_memory)
    (herr : env.exec_output.wasm.wasm_result = .error e) :
    C3Post live spawn now registry input env st := by
  unfold C3Post
  simp only [acquiredProcess] at hw ⊢
  obtain ⟨wid, cnt, wb', st₁, hOW, f1, f2, f3, f4, tr1, htr1, hns1⟩ :=
    open_wasm_ensured live
      (get_sandbox_process live spawn now registry input.canister_id).1
      input.execution_state.wasm_binary env.open_wasm_reply st hw
  obtain ⟨hd₁, st₃, hORM1, hsy1, hun1, g1, g2, g3, g4, tr2, htr2, hns2⟩ :=
    open_remote_memory_ensured
      (get_sandbox_process live spawn now registry input.canister_id).1
      input.execution_state.wasm_memory
      { st₁ with nextExecId := st₁.nextExecId + 1,
                 registeredExecs := st₁.registeredExecs ++ [st₁.nextExecId] }
      hmw
  obtain ⟨hd₂, st₅, hORM2, hsy2, hun2, k1, k2, k3, k4, tr3, htr3, hns3⟩ :=
    open_remote_memory_ensured
      (get_sandbox_process live spawn now registry input.canister_id).1
      input.execution_state.stable_memory
      { st₃ with nextMemoryId := st₃.nextMemoryId + 1 }
      hms
  apply Exists.intro
  apply Exists.intro
  apply Exists.intro
  refine ⟨?heq, ?p1, ?p2, ?p3, ?p4, ?p5, ?b1, ?b2⟩
  case heq => simp only [process, hOW, hORM1, hORM2, herr]; rfl
  case p1 => simp
  case p2 => simp
  case p3 => simp
  case p4 => simp
  case p5 => simp
  case b1 =>
    exact ⟨fun h0 hh => by simp [(hsy1 h0 hh).1],
      fun hh => ⟨st₁.nextMemoryId, by simp [hun1 hh]⟩⟩
  case b2 =>
    exact ⟨fun h0 hh => by simp [(hsy2 h0 hh).1],
      fun hh => ⟨st₃.nextMemoryId + 1, by simp [hun2 hh]⟩⟩

theorem process_err_preserves_state_witness :
    C3Post [] ⟨1⟩ 0 [] inputW envErrW stZero :=
  process_err_preserves_state [] ⟨1⟩ 0 [] inputW envErrW stZero 13
    (by decide) (by decide) (by decide) rfl

/-- **C9**: when the sandbox child exits, the watcher panics exactly when
the weak reference to the `SandboxProcess` still upgrades, and the panic
value carries the canister id, the pid, and the exit code, the signal, or
the unknown-reason marker according to availability; a dead weak reference
makes the watcher return silently. -/
theorem crash_watcher_exit_behavior (live : List Nat) (canister_id pid : Nat)
    (code signal : Option Int) :
    (pid ∈ live →
      observe_sandbox_process_exit live canister_id pid code signal =
        some (panic_due_to_sandbox_exit code signal canister_id pid)) ∧
    (pid ∉ live →
      observe_sandbox_process_exit live canister_id pid code signal = none) ∧
    (panic_due_to_sandbox_exit code signal canister_id pid).canister =
      canister_id ∧
    (panic_due_to_sandbox_exit code signal canister_id pid).pidOf = pid ∧
    (∀ c, code = some c →
      panic_due_to_sandbox_exit code signal canister_id pid =
        .exitCode canister_id pid c) ∧
    (∀ s, code = none → signal = some s →
      panic_due_to_sandbox_exit code signal canister_id pid =
        .exitSignal canister_id pid s) ∧
    (code = none → signal = none →
      panic_due_to_sandbox_exit code signal canister_id pid =
        .unknown canister_id pid) := by
  refine ⟨fun h => by simp [observe_sandbox_process_exit, h],
    fun h => by simp [observe_sandbox_process_exit, h], ?_⟩
  cases code <;> cases signal <;>
    simp [panic_due_to_sandbox_exit, PanicMsg.canister, PanicMsg.pidOf]

theorem crash_watcher_exit_behavior_witness :
    observe_sandbox_process_exit [5] 1 5 none (some 9) =
      some (panic_due_to_sandbox_exit none (some 9) 1 5) :=
  (crash_watcher_exit_behavior [5] 1 5 none (some 9)).1 (by decide)

/-- **C10**: on an `Unsynced` binding satisfying the empty-delta invariant,
`open_remote_memory` does not panic: it allocates the next `MemoryId`,
sends `OpenMemory` with the serialized page map and size, stores a
`Synced` handle in the binding, and returns that handle. -/
theorem open_remote_memory_unsynced_spec (sp : SandboxProcess) (m : Memory)
    (st : CtrlState) (hb : m.sandbox_memory = .unsynced)
    (hinv : memSyncInvariant m) :
    open_remote_memory sp m st =
      some (wrap_remote_memory sp st.nextMemoryId,
        { m with sandbox_memory :=
            SandboxMemory.synced (wrap_remote_memory sp st.nextMemoryId) },
        { st with nextMemoryId := st.nextMemoryId + 1,
                  trace := st.trace ++
                    [(sp.pid,
                      Msg.openMemory st.nextMemoryId m.page_map.serialize
                        m.size)] }) := by
  obtain ⟨h1, h2⟩ := hinv hb
  simp [open_remote_memory, hb, PageMap.serialize, h1, h2, wrap_remote_memory]

theorem open_remote_memory_unsynced_spec_witness :
    open_remote_memory ⟨3⟩ memUnsyncedW stZero =
      some (wrap_remote_memory ⟨3⟩ 0,
        { memUnsyncedW with sandbox_memory :=
            SandboxMemory.synced (wrap_remote_memory ⟨3⟩ 0) },
        { stZero with nextMemoryId := 1,
                      trace := [(3, Msg.openMemory 0 pmClean.serialize 4)] }) :=
  open_remote_memory_unsynced_spec ⟨3⟩ memUnsyncedW stZero rfl (by decide)

end SandboxCtrl
